import Mathlib

/-!
Verification of the CasAI client orchestration core: a shallow embedding of
the session controllers found in the repository front end (detection,
search fan-out, generation, wishlist and saved-project persistence, chat),
with theorems about their error handling, persistence invariants and
request ordering. Network calls are modelled by an explicit outcome value
handed to each controller, and each controller returns the state it leaves
behind together with the requests it issued.
-/

namespace CasAI

/-- Outcome of one `fetch` call as the calling code observes it: a 2xx
response with a decoded body, a non-2xx response (`res.ok` is false), or a
rejected promise (network failure, or a throw while decoding the body). -/
inductive FetchOutcome (α : Type) where
  | ok (body : α)
  | httpError
  | transportError
deriving DecidableEq, Repr

/-- JavaScript truthiness of a `string | null | undefined` value: `null`,
`undefined` and the empty string are falsy. -/
def jsTruthy : Option String → Bool
  | none => false
  | some s => s != ""

/-- JavaScript `a || b` over `string | null | undefined` values: `b` is
returned whenever `a` is falsy. -/
def jsOr (a b : Option String) : Option String :=
  if jsTruthy a then a else b

/-- JavaScript `a || d` where `d` is a string literal used as the default. -/
def jsOrElse (a : Option String) (d : String) : String :=
  if jsTruthy a then a.getD d else d

/-- ASCII whitespace, the characters `trim()` strips in the inputs this
client produces. -/
def isWsChar (c : Char) : Bool :=
  c == ' ' || c == '\t' || c == '\n' || c == '\r'

/-- `s.trim()`: strip leading and trailing whitespace. Defined over the
character list so that it evaluates by kernel reduction. -/
def jsTrim (s : String) : String :=
  String.mk (((s.data.dropWhile isWsChar).reverse.dropWhile isWsChar).reverse)

/-- `DetectionItem` as consumed by DesignRequestModal
(src/frontend/src/components/DesignRequestModal.tsx): the `class` field of
the source is named `itemClass` here because `class` is a Lean keyword. -/
structure DetectionItem where
  itemClass : String
  crop_url : String
deriving DecidableEq, Repr

/-- The DesignRequestModal component state read by `handleAction`
(src/frontend/src/components/DesignRequestModal.tsx): the selected file is
modelled by its name (what the path convention consumes). -/
structure ModalState where
  selectedFile : Option String
  vision : String
  detectedItems : List DetectionItem
  selectedItemIndex : Option Nat
  originalImagePath : Option String
deriving DecidableEq, Repr

/-- A similarity-search record as it arrives on the wire: every field is
optional, and each logical field may arrive under the canonical name
(`item_name`, ...) or the legacy one (`name`, ...). -/
structure RecommendationRecord where
  item_name : Option String
  name : Option String
  item_price : Option String
  price : Option String
  item_url : Option String
  link : Option String
  item_img : Option String
  image : Option String
  item_cat : Option String
deriving DecidableEq, Repr

/-- `ExternalLink` as declared in src/frontend/src/components/ProjectReveal.tsx. -/
structure ExternalLink where
  id : String
  title : String
  source : String
  price : Option String
  link : String
  image : Option String
deriving DecidableEq, Repr

/-- The two backend responses a single `handleAction` invocation can
consume: the `/recommend` leg and the `/google_search` leg. -/
structure SearchEnv where
  recommendResp : FetchOutcome (List RecommendationRecord)
  googleResp : FetchOutcome (List ExternalLink)
deriving DecidableEq, Repr

/-- Network events of one `handleAction` run, in program order: a request
dispatch or the receipt of its response. -/
inductive SearchEvent where
  | sendRecommend
  | recvRecommend
  | sendGoogle (query : String)
  | recvGoogle
deriving DecidableEq, Repr

def isSendGoogleEv : SearchEvent → Bool
  | .sendGoogle _ => true
  | _ => false

def isRecvRecommendEv : SearchEvent → Bool
  | .recvRecommend => true
  | _ => false

/-- `detectedItems[selectedItemIndex]` with JavaScript indexing: `null`
index or an out-of-range index yields no item. -/
def selectedItemOf (st : ModalState) : Option DetectionItem :=
  st.selectedItemIndex.bind (fun i => st.detectedItems[i]?)

/-- The external-search query built by `handleAction`: the trimmed free
text if non-empty, else the class of the selected item if present, else
empty (and then no external call is issued). -/
def googleQueryOf (st : ModalState) : String :=
  let q := jsTrim st.vision
  if q == "" then
    match selectedItemOf st with
    | some item => item.itemClass
    | none => ""
  else q

/-- What `onResults` receives when `handleAction` succeeds: the raw
recommendation records plus the generation context and external links. -/
structure SearchSuccess where
  recommendations : List RecommendationRecord
  originalImagePath : Option String
  selectedCropUrl : Option String
  vision : String
  externalLinks : List ExternalLink
deriving DecidableEq, Repr

/-- Terminal outcome of one `handleAction` invocation: the no-file guard,
the catch branch (error toast, `onResults` never called), or a delivered
result. -/
inductive SearchResult where
  | noFile
  | failed
  | results (r : SearchSuccess)
deriving DecidableEq, Repr

/-- Whether the outcome delivered a result to `onResults`. -/
def SearchResult.delivers : SearchResult → Bool
  | .results _ => true
  | _ => false

/-- The payload `handleAction` hands to `onResults` on success: the raw
similarity records, the generation context fields, and the given
external links. -/
def searchSuccessOf (st : ModalState) (data : List RecommendationRecord)
    (links : List ExternalLink) : SearchSuccess :=
  { recommendations := data
  , originalImagePath := st.originalImagePath
  , selectedCropUrl := (selectedItemOf st).map (fun item => item.crop_url)
  , vision := st.vision
  , externalLinks := links }

/-- `handleAction` of src/frontend/src/components/DesignRequestModal.tsx:
requires a selected file; posts to `/recommend` and throws on a non-2xx
response; only after a successful similarity response does it issue the
`/google_search` call (when the query is non-empty), tolerating its
failure by leaving `externalLinks` empty; finally calls `onResults`.
Returns the outcome together with the network events in program order. -/
def handleAction (st : ModalState) (env : SearchEnv) : SearchResult × List SearchEvent :=
  match st.selectedFile with
  | none => (.noFile, [])
  | some _ =>
    match env.recommendResp with
    | .transportError => (.failed, [.sendRecommend])
    | .httpError => (.failed, [.sendRecommend, .recvRecommend])
    | .ok data =>
      if googleQueryOf st == "" then
        (.results (searchSuccessOf st data []), [.sendRecommend, .recvRecommend])
      else
        match env.googleResp with
        | .ok links =>
            (.results (searchSuccessOf st data links),
              [.sendRecommend, .recvRecommend, .sendGoogle (googleQueryOf st), .recvGoogle])
        | .httpError =>
            (.results (searchSuccessOf st data []),
              [.sendRecommend, .recvRecommend, .sendGoogle (googleQueryOf st), .recvGoogle])
        | .transportError =>
            (.results (searchSuccessOf st data []),
              [.sendRecommend, .recvRecommend, .sendGoogle (googleQueryOf st)])

/-- `detectItems` leaves only this state behind (toasts are presentation). -/
structure DetectOutcome where
  detectedItems : List DetectionItem
  selectedItemIndex : Option Nat
  originalImagePath : Option String
deriving DecidableEq, Repr

/-- `detectItems` of src/frontend/src/components/DesignRequestModal.tsx:
on a successful detection it stores the items, derives
`originalImagePath` as the fixed-prefix path `appdata/uploads/` plus the
file name, and default-selects index 0 when the list is non-empty; on
failure all three fields are reset. -/
def detectItems (fileName : String) (resp : FetchOutcome (List DetectionItem)) : DetectOutcome :=
  match resp with
  | .ok items =>
      { detectedItems := items
      , selectedItemIndex := if 0 < items.length then some 0 else none
      , originalImagePath := some ("appdata/uploads/" ++ fileName) }
  | _ => { detectedItems := [], selectedItemIndex := none, originalImagePath := none }

/-- `Product` as declared in src/frontend/src/components/ProjectReveal.tsx
(a wishlist entry); `id: string | number` is modelled by its string form. -/
structure Product where
  id : String
  item_name : String
  item_price : String
  item_img : String
  item_url : String
  item_cat : Option String
  brand : Option String
deriving DecidableEq, Repr

/-- `toggleSaveItem` of src/frontend/src/components/ProjectReveal.tsx (the
same updater appears in src/unnamed/part_003): if an entry with the same
`item_url` exists, filter all such entries out; otherwise append the item
at the end. -/
def toggleSaveItem (item : Product) (current : List Product) : List Product :=
  if current.any (fun p => p.item_url == item.item_url) then
    current.filter (fun p => !(p.item_url == item.item_url))
  else current ++ [item]

/-- `SavedProject` as declared in src/unnamed/part_003. -/
structure SavedProject where
  id : String
  image : Option String
  recommendations : List Product
  date : String
  vision : String
deriving DecidableEq, Repr

/-- The store-level insertion of `handleSaveProject`
(src/unnamed/part_003, `[newProject, ...projects]`): always prepends. -/
def projectsSave (projects : List SavedProject) (newProject : SavedProject) : List SavedProject :=
  newProject :: projects

/-- `handleSaveProject` of src/unnamed/part_003: the caller-side guard
(`!generatedImage || isProjectSaved`) followed by the unconditional
insertion; `none` means no write happened. `nowId` and `dateStr` stand for
`Date.now().toString()` and `new Date().toLocaleDateString()`, `ctxVision`
for `generationContext?.vision`. -/
def handleSaveProject (generatedImage : Option String) (isProjectSaved : Bool)
    (stored : List SavedProject) (nowId dateStr : String)
    (recommendations : List Product) (ctxVision : Option String) :
    Option (List SavedProject) :=
  if !(jsTruthy generatedImage) || isProjectSaved then none
  else some (projectsSave stored
    { id := nowId
    , image := generatedImage
    , recommendations := recommendations
    , date := dateStr
    , vision := jsOrElse ctxVision "New Design" })

/-- The canonical shape produced by the guarded normalization of
src/unnamed/part_004 (every required field is a defined string). -/
structure FormattedRecommendation where
  id : String
  item_name : String
  item_price : String
  item_cat : String
  item_url : String
  item_img : String
deriving DecidableEq, Repr

/-- The shape produced by the normalization in `handleResultsFound` of
src/frontend/src/pages/Index.tsx: no final fallbacks, so every field
except `id` and `item_cat` may come out `undefined`. -/
structure LooseFormattedRecommendation where
  id : String
  item_name : Option String
  item_price : Option String
  item_cat : String
  item_url : Option String
  item_img : Option String
deriving DecidableEq, Repr

/-- The per-record normalization inside `handleResultsFound` of
src/frontend/src/pages/Index.tsx: `item_name: item.item_name || item.name`
and so on, with a fallback only for `item_cat`. `i` is the array index
(`id: String(i)`). -/
def formatRecommendation (i : Nat) (r : RecommendationRecord) : LooseFormattedRecommendation :=
  { id := toString i
  , item_name := jsOr r.item_name r.name
  , item_price := jsOr r.item_price r.price
  , item_cat := jsOrElse r.item_cat "Furniture"
  , item_url := jsOr r.item_url r.link
  , item_img := jsOr r.item_img r.image }

/-- The per-record normalization inside `handleResultsFound` of
src/unnamed/part_004: the same field pairs with terminal fallbacks
(`"Unknown Item"`, `"N/A"`, `"Furniture"`, `"#"`, `""`). -/
def formatRecommendationGuarded (i : Nat) (r : RecommendationRecord) : FormattedRecommendation :=
  { id := toString i
  , item_name := jsOrElse (jsOr r.item_name r.name) "Unknown Item"
  , item_price := jsOrElse (jsOr r.item_price r.price) "N/A"
  , item_cat := jsOrElse r.item_cat "Furniture"
  , item_url := jsOrElse (jsOr r.item_url r.link) "#"
  , item_img := jsOrElse (jsOr r.item_img r.image) "" }

/-- A record carrying only the canonical wire names. -/
def canonicalRecord (n p u im c : Option String) : RecommendationRecord :=
  ⟨n, none, p, none, u, none, im, none, c⟩

/-- A record carrying only the legacy wire names. -/
def legacyRecord (n p u im c : Option String) : RecommendationRecord :=
  ⟨none, n, none, p, none, u, none, im, c⟩

/-- A record with every field absent. -/
def emptyRecord : RecommendationRecord :=
  ⟨none, none, none, none, none, none, none, none, none⟩

/-- What `localStorage.getItem` plus `JSON.parse` yields for one stored
entry: a string that fails to parse, a parsed non-array value, or a
parsed array of collection entries. -/
inductive StoredValue (α : Type) where
  | malformed
  | nonArray
  | array (xs : List α)
deriving DecidableEq, Repr

/-- The collection an entry hydrates to when its load is reached without a
prior exception: a parsed array is taken as-is, everything else leaves the
initial empty state. -/
def loadedCollection {α : Type} : Option (StoredValue α) → List α
  | some (.array xs) => xs
  | _ => []

/-- The hydration useEffect of `SavedItems` (second component of
src/frontend/src/pages/Index.tsx): both entries are read inside one
`try`, so a parse exception on the wishlist entry aborts the
saved-projects load as well; every branch leaves the affected collection
empty rather than throwing. -/
def hydrateSavedItems (wishlistRaw : Option (StoredValue Product))
    (projectsRaw : Option (StoredValue SavedProject)) :
    List Product × List SavedProject :=
  match wishlistRaw with
  | some .malformed => ([], [])
  | _ =>
    match projectsRaw with
    | some .malformed => (loadedCollection wishlistRaw, [])
    | _ => (loadedCollection wishlistRaw, loadedCollection projectsRaw)

/-- `GenerationContext` as declared in
src/frontend/src/components/ProjectReveal.tsx and src/unnamed/part_003. -/
structure GenerationContext where
  originalImagePath : Option String
  selectedCropUrl : Option String
  vision : String
deriving DecidableEq, Repr

/-- Terminal outcome of one generation invocation: the first guard of
`handleGeneratePreview` (no context, or a call already in flight), the
validation guard that returns before any request is built, a failed
request (rejected fetch or non-2xx), or a 2xx completion carrying the
image delivered through the callback (none when the body had no
`generated_image` or no callback was wired). -/
inductive GenOutcome where
  | skipped
  | missingInput
  | requestFailed
  | completed (delivered : Option String)
deriving DecidableEq, Repr

/-- `handleGeneratePreview` of
src/frontend/src/components/ProjectReveal.tsx, returning the branch taken
and the number of `/generate_new_design` requests issued. -/
def handleGeneratePreview (ctx : Option GenerationContext) (isGenerating : Bool)
    (hasCallback : Bool) (resp : FetchOutcome (Option String)) : GenOutcome × Nat :=
  match ctx with
  | none => (.skipped, 0)
  | some c =>
    if isGenerating then (.skipped, 0)
    else if !(jsTruthy c.originalImagePath) || !(jsTruthy c.selectedCropUrl)
        || jsTrim c.vision == "" then
      (.missingInput, 0)
    else
      match resp with
      | .transportError => (.requestFailed, 1)
      | .httpError => (.requestFailed, 1)
      | .ok body => (.completed (if jsTruthy body && hasCallback then body else none), 1)

/-- `handleGenerateDesign` of src/unnamed/part_003: one combined guard
(`!onGeneratedImage || !generationContext || !originalImagePath ||
!selectedCropUrl`) logs "Missing context for generation" and returns
before any request; the request payload (recommendation image, prompt) is
not modelled because it does not affect the observed branch. -/
def handleGenerateDesign (hasCallback : Bool) (ctx : Option GenerationContext)
    (resp : FetchOutcome (Option String)) : GenOutcome × Nat :=
  if !hasCallback then (.missingInput, 0)
  else
    match ctx with
    | none => (.missingInput, 0)
    | some c =>
      if !(jsTruthy c.originalImagePath) || !(jsTruthy c.selectedCropUrl) then
        (.missingInput, 0)
      else
        match resp with
        | .transportError => (.requestFailed, 1)
        | .httpError => (.requestFailed, 1)
        | .ok body => (.completed (if jsTruthy body then body else none), 1)

/-- Chat message roles. -/
inductive ChatRole where
  | user
  | assistant
deriving DecidableEq, Repr

/-- `Product` as declared locally in src/frontend/src/components/StylingChat.tsx. -/
structure ChatProduct where
  item_name : String
  item_price : String
  item_img : String
  item_url : String
deriving DecidableEq, Repr

/-- `Message` as declared in src/frontend/src/components/StylingChat.tsx;
the optional `recommendations` field is kept optional. -/
structure ChatMessage where
  id : Nat
  role : ChatRole
  content : String
  has_image : Bool
  recommendations : Option (List ChatProduct)
deriving DecidableEq, Repr

/-- The image part of a chat request: a freshly attached file, the
server-side filename reused by reference, or nothing. -/
inductive ChatImagePart where
  | file (name : String)
  | filename (name : String)
  | noPart
deriving DecidableEq, Repr

/-- One request to `/api/chat`: the role+text history plus the image part. -/
structure ChatRequest where
  messages : List (ChatRole × String)
  imagePart : ChatImagePart
deriving DecidableEq, Repr

/-- The decoded `/api/chat` response body. -/
structure ChatResponseBody where
  response : String
  image_filename : Option String
  recommendations : Option (List ChatProduct)
deriving DecidableEq, Repr

/-- The StylingChat component state read and written by `handleSend`. -/
structure ChatState where
  messages : List ChatMessage
  input : String
  selectedFile : Option String
  serverImageFilename : Option String
  isLoading : Bool
deriving DecidableEq, Repr

/-- `handleSend` of src/frontend/src/components/StylingChat.tsx: the guard
`(!input.trim() && !selectedFile) || isLoading` makes the call a no-op;
otherwise the user message is appended optimistically, one request is
dispatched carrying the full role+text history and either the fresh file
or the stored server filename, and the response (or the failure message)
is appended. `now` stands for `Date.now()`. -/
def handleSend (st : ChatState) (now : Nat) (resp : FetchOutcome ChatResponseBody) :
    ChatState × List ChatRequest :=
  if (jsTrim st.input == "" && st.selectedFile.isNone) || st.isLoading then (st, [])
  else
    let newUserMsg : ChatMessage :=
      { id := now, role := .user, content := st.input
      , has_image := st.selectedFile.isSome, recommendations := none }
    let newMessages := st.messages ++ [newUserMsg]
    let imagePart : ChatImagePart :=
      match st.selectedFile, st.serverImageFilename with
      | some f, _ => .file f
      | none, some h => .filename h
      | none, none => .noPart
    let req : ChatRequest :=
      { messages := newMessages.map (fun m => (m.role, m.content)), imagePart := imagePart }
    match resp with
    | .ok data =>
      let adopted := jsTruthy data.image_filename
      ({ messages := newMessages ++
          [{ id := now + 1, role := .assistant, content := data.response
           , has_image := false, recommendations := data.recommendations }]
       , input := ""
       , selectedFile := if adopted then none else st.selectedFile
       , serverImageFilename := if adopted then data.image_filename else st.serverImageFilename
       , isLoading := false }, [req])
    | _ =>
      ({ messages := newMessages ++
          [{ id := now + 1, role := .assistant, content := "Error connecting to server."
           , has_image := false, recommendations := none }]
       , input := ""
       , selectedFile := st.selectedFile
       , serverImageFilename := st.serverImageFilename
       , isLoading := false }, [req])

/-! ## Theorems -/

/-- C1: if the similarity-search request fails (non-2xx response or
transport error), the whole search fails: `onResults` is never invoked,
so neither recommendations nor external links reach the caller, whatever
the external leg would have returned. -/
theorem similarity_failure_fails_search (st : ModalState) (env : SearchEnv)
    (h : env.recommendResp = .httpError ∨ env.recommendResp = .transportError) :
    ((handleAction st env).fst).delivers = false := by
  obtain ⟨f, v, d, i, p⟩ := st
  rcases h with h | h <;> cases f <;>
    simp [handleAction, h, SearchResult.delivers]

/-- Witness for C1 at a concrete failing input. -/
theorem similarity_failure_fails_search_witness :
    ((handleAction
        { selectedFile := some "room.jpg", vision := "", detectedItems := []
        , selectedItemIndex := none, originalImagePath := none }
        { recommendResp := .httpError, googleResp := .ok [] }).fst).delivers = false :=
  similarity_failure_fails_search _ _ (Or.inl rfl)

/-- C2: when the similarity leg succeeds, a failing external leg (non-2xx
or transport error) does not fail the operation: the caller still receives
the similarity data, with `externalLinks` empty. -/
theorem external_failure_keeps_similarity_results (st : ModalState) (env : SearchEnv)
    (fileName : String) (data : List RecommendationRecord)
    (hf : st.selectedFile = some fileName)
    (hr : env.recommendResp = .ok data)
    (hg : env.googleResp = .httpError ∨ env.googleResp = .transportError) :
    (handleAction st env).fst = .results (searchSuccessOf st data []) := by
  obtain ⟨f, v, d, i, p⟩ := st
  obtain ⟨r, g⟩ := env
  simp only at hf hr
  subst hf
  subst hr
  rcases hg with hg | hg <;> simp only at hg <;> subst hg <;>
    simp only [handleAction] <;> split <;> rfl

/-- Witness for C2 at a concrete input: external leg down, similarity up. -/
theorem external_failure_keeps_similarity_results_witness :
    (handleAction
        { selectedFile := some "room.jpg", vision := "blue sofa", detectedItems := []
        , selectedItemIndex := none, originalImagePath := some "appdata/uploads/room.jpg" }
        { recommendResp := .ok [emptyRecord], googleResp := .transportError }).fst =
      .results (searchSuccessOf
        { selectedFile := some "room.jpg", vision := "blue sofa", detectedItems := []
        , selectedItemIndex := none, originalImagePath := some "appdata/uploads/room.jpg" }
        [emptyRecord] []) :=
  external_failure_keeps_similarity_results
    { selectedFile := some "room.jpg", vision := "blue sofa", detectedItems := []
    , selectedItemIndex := none, originalImagePath := some "appdata/uploads/room.jpg" }
    { recommendResp := .ok [emptyRecord], googleResp := .transportError }
    "room.jpg" [emptyRecord] rfl rfl (Or.inr rfl)

/-- The event trace of one `handleAction` run takes one of five shapes,
all of them prefixes of send-recommend, receive-recommend, send-google,
receive-google (with the google receipt dropped on a transport failure). -/
theorem handleAction_snd_shape (st : ModalState) (env : SearchEnv) :
    (handleAction st env).snd = [] ∨
    (handleAction st env).snd = [.sendRecommend] ∨
    (handleAction st env).snd = [.sendRecommend, .recvRecommend] ∨
    (∃ q, (handleAction st env).snd
      = [.sendRecommend, .recvRecommend, .sendGoogle q, .recvGoogle]) ∨
    (∃ q, (handleAction st env).snd
      = [.sendRecommend, .recvRecommend, .sendGoogle q]) := by
  obtain ⟨f, v, d, i, p⟩ := st
  obtain ⟨r, g⟩ := env
  cases f with
  | none => exact Or.inl rfl
  | some name =>
    cases r with
    | transportError => exact Or.inr (Or.inl rfl)
    | httpError => exact Or.inr (Or.inr (Or.inl rfl))
    | ok data =>
      simp only [handleAction]
      split
      · exact Or.inr (Or.inr (Or.inl rfl))
      · cases g with
        | ok links => exact Or.inr (Or.inr (Or.inr (Or.inl ⟨_, rfl⟩)))
        | httpError => exact Or.inr (Or.inr (Or.inr (Or.inl ⟨_, rfl⟩)))
        | transportError => exact Or.inr (Or.inr (Or.inr (Or.inr ⟨_, rfl⟩)))

/-- C9 (amended): the two legs are issued sequentially, not concurrently:
whenever the external-search request is dispatched at all, its dispatch
comes strictly after the similarity response has been received. -/
theorem external_dispatch_waits_for_similarity (st : ModalState) (env : SearchEnv)
    (h : ((handleAction st env).snd).any isSendGoogleEv = true) :
    ((handleAction st env).snd).findIdx isRecvRecommendEv
      < ((handleAction st env).snd).findIdx isSendGoogleEv := by
  rcases handleAction_snd_shape st env with h0 | h0 | h0 | ⟨q, h0⟩ | ⟨q, h0⟩ <;>
    rw [h0] at h ⊢ <;>
    simp [isSendGoogleEv, isRecvRecommendEv, List.findIdx_cons] at h ⊢

/-- Witness for the amended C9: with both legs issued, the similarity
response (index 1) precedes the external dispatch (index 2). -/
theorem external_dispatch_waits_for_similarity_witness :
    ((handleAction
        { selectedFile := some "sofa.jpg", vision := ""
        , detectedItems := [{ itemClass := "sofa", crop_url := "/crops/1.jpg" }]
        , selectedItemIndex := some 0, originalImagePath := some "appdata/uploads/sofa.jpg" }
        { recommendResp := .ok [], googleResp := .ok [] }).snd).findIdx isRecvRecommendEv
      < ((handleAction
        { selectedFile := some "sofa.jpg", vision := ""
        , detectedItems := [{ itemClass := "sofa", crop_url := "/crops/1.jpg" }]
        , selectedItemIndex := some 0, originalImagePath := some "appdata/uploads/sofa.jpg" }
        { recommendResp := .ok [], googleResp := .ok [] }).snd).findIdx isSendGoogleEv :=
  external_dispatch_waits_for_similarity _ _ (by decide)

/-- C9 counterexample: at a concrete input where both legs are issued, the
event trace is strictly sequential, and the external dispatch (index 2)
does not precede the similarity completion (index 1), contradicting
concurrent dispatch. -/
theorem search_legs_not_concurrent_cex :
    (handleAction
        { selectedFile := some "sofa.jpg", vision := ""
        , detectedItems := [{ itemClass := "sofa", crop_url := "/crops/1.jpg" }]
        , selectedItemIndex := some 0, originalImagePath := some "appdata/uploads/sofa.jpg" }
        { recommendResp := .ok [], googleResp := .ok [] }).snd
      = [.sendRecommend, .recvRecommend, .sendGoogle "sofa", .recvGoogle] ∧
    ¬ ((handleAction
        { selectedFile := some "sofa.jpg", vision := ""
        , detectedItems := [{ itemClass := "sofa", crop_url := "/crops/1.jpg" }]
        , selectedItemIndex := some 0, originalImagePath := some "appdata/uploads/sofa.jpg" }
        { recommendResp := .ok [], googleResp := .ok [] }).snd.findIdx isSendGoogleEv
        < (handleAction
        { selectedFile := some "sofa.jpg", vision := ""
        , detectedItems := [{ itemClass := "sofa", crop_url := "/crops/1.jpg" }]
        , selectedItemIndex := some 0, originalImagePath := some "appdata/uploads/sofa.jpg" }
        { recommendResp := .ok [], googleResp := .ok [] }).snd.findIdx isRecvRecommendEv) := by
  decide

/-- C3: with either required context field null, neither generation entry
point issues a request: both return through their validation branch with
zero transport calls (and so never report a network error). -/
theorem generate_requires_context (c : GenerationContext) (hasCb : Bool)
    (resp : FetchOutcome (Option String))
    (h : c.originalImagePath = none ∨ c.selectedCropUrl = none) :
    handleGenerateDesign hasCb (some c) resp = (.missingInput, 0) ∧
    handleGeneratePreview (some c) false hasCb resp = (.missingInput, 0) := by
  rcases h with h | h <;>
    cases hasCb <;>
      simp [handleGenerateDesign, handleGeneratePreview, h, jsTruthy]

/-- Witness for C3: a context with a selected crop but no original-image
path is rejected locally, with zero requests issued. -/
theorem generate_requires_context_witness :
    handleGenerateDesign true
        (some { originalImagePath := none, selectedCropUrl := some "/crops/1.jpg"
              , vision := "cozy" }) (.ok (some "img")) = (.missingInput, 0) ∧
    handleGeneratePreview
        (some { originalImagePath := none, selectedCropUrl := some "/crops/1.jpg"
              , vision := "cozy" }) false true (.ok (some "img")) = (.missingInput, 0) :=
  generate_requires_context _ true _ (Or.inl rfl)

/-- C4 counterexample: uploading `sofa.jpg` stores
`appdata/uploads/sofa.jpg`, not the `uploads/sofa.jpg` the claim states. -/
theorem upload_path_convention_cex :
    (detectItems "sofa.jpg"
        (.ok [{ itemClass := "sofa", crop_url := "/crops/1.jpg" }])).originalImagePath
      = some "appdata/uploads/sofa.jpg" ∧
    (detectItems "sofa.jpg"
        (.ok [{ itemClass := "sofa", crop_url := "/crops/1.jpg" }])).originalImagePath
      ≠ some "uploads/sofa.jpg" := by
  decide

/-- C4 (amended): after a successful detection the stored path is the
fixed-prefix path `appdata/uploads/` plus the uploaded file name, and a
non-empty detection list default-selects index 0. -/
theorem upload_path_convention (fileName : String) (items : List DetectionItem) :
    (detectItems fileName (.ok items)).originalImagePath
      = some ("appdata/uploads/" ++ fileName) ∧
    (0 < items.length → (detectItems fileName (.ok items)).selectedItemIndex = some 0) := by
  refine ⟨rfl, fun h => ?_⟩
  simp [detectItems, h]

/-- C5 counterexample: toggling the first of two saved items off and on
again re-appends it at the end, so the wishlist does not return to its
prior state. -/
theorem upsert_toggle_involution_cex :
    toggleSaveItem
        { id := "1", item_name := "Arm Chair", item_price := "$89", item_img := "img/a.jpg"
        , item_url := "https://x/1", item_cat := none, brand := none }
        (toggleSaveItem
          { id := "1", item_name := "Arm Chair", item_price := "$89", item_img := "img/a.jpg"
          , item_url := "https://x/1", item_cat := none, brand := none }
          [ { id := "1", item_name := "Arm Chair", item_price := "$89", item_img := "img/a.jpg"
            , item_url := "https://x/1", item_cat := none, brand := none }
          , { id := "2", item_name := "Bookcase", item_price := "$49", item_img := "img/b.jpg"
            , item_url := "https://x/2", item_cat := none, brand := none } ])
      ≠ [ { id := "1", item_name := "Arm Chair", item_price := "$89", item_img := "img/a.jpg"
          , item_url := "https://x/1", item_cat := none, brand := none }
        , { id := "2", item_name := "Bookcase", item_price := "$49", item_img := "img/b.jpg"
          , item_url := "https://x/2", item_cat := none, brand := none } ] := by
  decide

/-- C5 (amended): a double toggle restores the prior state exactly when no
entry with the product key was present; when one was, it yields the prior
entries without that key with the toggled product appended at the end
(the same entries only up to position and up to replacing the stored
entry by the toggled product). A single application removes all entries
with the key if any exists, otherwise appends. -/
theorem upsert_toggle_involution (s : List Product) (p : Product) :
    toggleSaveItem p (toggleSaveItem p s) =
      if s.any (fun q => q.item_url == p.item_url) then
        s.filter (fun q => !(q.item_url == p.item_url)) ++ [p]
      else s := by
  by_cases h : s.any (fun q => q.item_url == p.item_url) = true
  · have hfilter : (s.filter (fun q => !(q.item_url == p.item_url))).any
        (fun q => q.item_url == p.item_url) = false := by
      rw [List.any_eq_false]
      intro x hx
      rw [List.mem_filter] at hx
      simpa using hx.2
    simp [toggleSaveItem, h, hfilter]
  · have h0 : s.any (fun q => q.item_url == p.item_url) = false := by
      simpa using h
    have hself : s.filter (fun q => !(q.item_url == p.item_url)) = s := by
      rw [List.filter_eq_self]
      intro a ha
      have := (List.any_eq_false.mp h0) a ha
      simpa using this
    have hp : ((s ++ [p]).any (fun q => q.item_url == p.item_url)) = true := by
      simp [List.any_append]
    simp [toggleSaveItem, h0, hp, List.filter_append, hself]

/-- C6: the saved-projects insertion is append-only: it grows the
collection by exactly one, keeps every prior entry and adds the new one,
with no deduplication; and with the guard satisfied (an image exists and
the project was not yet flagged saved) `handleSaveProject` performs
exactly that insertion. -/
theorem projects_save_always_inserts (stored : List SavedProject) (proj : SavedProject)
    (img nowId dateStr : String) (recs : List Product) (ctxVision : Option String) :
    (projectsSave stored proj).length = stored.length + 1 ∧
    stored ⊆ projectsSave stored proj ∧
    proj ∈ projectsSave stored proj ∧
    (img ≠ "" → ∃ l, handleSaveProject (some img) false stored nowId dateStr recs ctxVision
        = some l ∧ l.length = stored.length + 1) := by
  refine ⟨rfl, List.subset_cons_self _ _, List.mem_cons_self _ _, fun h => ?_⟩
  have hw : handleSaveProject (some img) false stored nowId dateStr recs ctxVision
      = some (projectsSave stored
          { id := nowId, image := some img, recommendations := recs
          , date := dateStr, vision := jsOrElse ctxVision "New Design" }) := by
    simp [handleSaveProject, jsTruthy, h]
  exact ⟨_, hw, rfl⟩

/-- C7 counterexample: the normalization of src/frontend/src/pages/Index.tsx
leaves `item_name` and `item_price` undefined on a record carrying neither
naming convention, while the guarded variant substitutes the fallbacks. -/
theorem normalization_fallbacks_cex :
    (formatRecommendation 0 emptyRecord).item_name = none ∧
    (formatRecommendation 0 emptyRecord).item_price = none ∧
    (formatRecommendationGuarded 0 emptyRecord).item_name = "Unknown Item" := by
  decide

/-- C7 (amended): the guarded normalization (src/unnamed/part_004) maps a
record under either naming convention to the same canonical shape and
substitutes its fallbacks (`Unknown Item`, `N/A`, `Furniture`, `#`, the
empty string) for absent fields, never leaving a required field
undefined; the variant in src/frontend/src/pages/Index.tsx only does so
for `item_cat`. -/
theorem normalization_conventions_agree (i : Nat) (n p u im c : Option String) :
    formatRecommendationGuarded i (canonicalRecord n p u im c)
      = formatRecommendationGuarded i (legacyRecord n p u im c) ∧
    formatRecommendationGuarded i emptyRecord
      = { id := toString i, item_name := "Unknown Item", item_price := "N/A"
        , item_cat := "Furniture", item_url := "#", item_img := "" } := by
  have key : ∀ (a : Option String) (d : String),
      jsOrElse (jsOr a none) d = jsOrElse (jsOr none a) d := by
    intro a d
    cases a with
    | none => rfl
    | some s => by_cases hs : s = "" <;> simp [jsOr, jsOrElse, jsTruthy, hs]
  refine ⟨?_, rfl⟩
  simp only [formatRecommendationGuarded, canonicalRecord, legacyRecord]
  rw [key n, key p, key u, key im]

/-- C8 counterexample: with a malformed wishlist entry, a well-formed
saved-projects array is not loaded as-is: the shared `try` aborts and the
projects collection hydrates empty. -/
theorem hydration_cross_corruption_cex :
    (hydrateSavedItems (some .malformed)
        (some (.array [{ id := "1700000000000", image := some "base64image"
                       , recommendations := [], date := "1.1.2026"
                       , vision := "Modern loft" }]))).snd = [] ∧
    (hydrateSavedItems (some .malformed)
        (some (.array [{ id := "1700000000000", image := some "base64image"
                       , recommendations := [], date := "1.1.2026"
                       , vision := "Modern loft" }]))).snd
      ≠ [{ id := "1700000000000", image := some "base64image"
         , recommendations := [], date := "1.1.2026", vision := "Modern loft" }] := by
  decide

/-- C8 (amended): hydration never throws and degrades absent, malformed or
non-array entries to the empty collection; the wishlist entry always
hydrates to what was stored (arrays as-is), and the projects entry does
too unless the wishlist entry was malformed, in which case the shared
`try` resets the projects collection to empty as well. -/
theorem hydration_tolerates_corruption (w : Option (StoredValue Product))
    (p : Option (StoredValue SavedProject)) :
    (hydrateSavedItems w p).fst = loadedCollection w ∧
    (w ≠ some .malformed → (hydrateSavedItems w p).snd = loadedCollection p) ∧
    (w = some .malformed → hydrateSavedItems w p = ([], [])) := by
  rcases w with _ | (_ | _ | xs) <;> rcases p with _ | (_ | _ | ys) <;>
    simp [hydrateSavedItems, loadedCollection]

/-- C10: with empty-or-whitespace input and no attached file, or with a
request already in flight, `handleSend` is a no-op: the whole chat state
(history, attached file, server image handle) is unchanged and no request
is dispatched. -/
theorem send_noop_on_empty_or_inflight (st : ChatState) (now : Nat)
    (resp : FetchOutcome ChatResponseBody)
    (h : (jsTrim st.input = "" ∧ st.selectedFile = none) ∨ st.isLoading = true) :
    handleSend st now resp = (st, []) := by
  rcases h with ⟨h1, h2⟩ | h
  · simp [handleSend, h1, h2]
  · simp [handleSend, h]

/-- Witness for C10: whitespace-only input, no file, not loading. -/
theorem send_noop_on_empty_or_inflight_witness :
    handleSend
        { messages := [], input := "   ", selectedFile := none
        , serverImageFilename := none, isLoading := false } 0 .httpError
      = ({ messages := [], input := "   ", selectedFile := none
         , serverImageFilename := none, isLoading := false }, []) :=
  send_noop_on_empty_or_inflight _ _ _ (Or.inl ⟨by decide, rfl⟩)

end CasAI
